import Mathlib

/-!
Verification of the BookBridge asset-generation scripts
(`create_beautiful_icon.py` and `create_app_assets.py`).

The scripts are straight-line PIL drawing pipelines.  We embed the
arithmetic they perform shallowly:

* Python floats are modelled as exact rationals (`ℚ`); every quantity the
  scripts compute here is an exact dyadic/decimal value far below any
  double-precision rounding threshold, except where noted.
* Python `int(...)` (truncation toward zero) is modelled by `pyInt`.
* Python `//` and `%` on the non-negative operands that occur here are
  modelled by `ℕ` division/subtraction.
* An image is a total function from coordinates to pixels; PIL's draw
  primitives only ever write rows/columns inside the canvas, and the
  claims only inspect in-bounds pixels.
-/

namespace BookBridge

/-- An RGB pixel as PIL stores it: three integer channels. -/
structure RGB where
  r : ℤ
  g : ℤ
  b : ℤ
deriving DecidableEq

/-- Python `int(...)` on a real value: truncation toward zero. -/
def pyInt (q : ℚ) : ℤ := if 0 ≤ q then ⌊q⌋ else ⌈q⌉

/-- One channel of the gradient loop body of `create_gradient`
(`create_beautiful_icon.py`, lines 11-14):
`ratio = i / extent; int(c1 * (1 - ratio) + c2 * ratio)`. -/
def interpChannel (c1 c2 : ℤ) (i extent : ℕ) : ℤ :=
  pyInt ((c1 : ℚ) * (1 - (i : ℚ) / (extent : ℚ)) + (c2 : ℚ) * ((i : ℚ) / (extent : ℚ)))

/-- The full interpolated line color `(r, g, b)` computed at step `i`. -/
def interpColor (c1 c2 : RGB) (i extent : ℕ) : RGB :=
  ⟨interpChannel c1.r c2.r i extent,
   interpChannel c1.g c2.g i extent,
   interpChannel c1.b c2.b i extent⟩

/-- An image: pixel color at coordinates `(x, y)`. -/
def Img : Type := ℕ → ℕ → RGB

/-- `Image.new('RGB', (w, h))` fills with black. -/
def blackImg : Img := fun _ _ => ⟨0, 0, 0⟩

/-- `draw.line([(0, j), (width, j)])`: paints every pixel of row `j`
(the portion beyond the canvas is clipped by PIL; the claims only read
in-bounds pixels). -/
def setRow (img : Img) (j : ℕ) (c : RGB) : Img :=
  fun x y => if y = j then c else img x y

/-- `draw.line([(j, 0), (j, height)])`: paints every pixel of column `j`. -/
def setCol (img : Img) (j : ℕ) (c : RGB) : Img :=
  fun x y => if x = j then c else img x y

/-- One iteration of the loop of `create_gradient`
(`create_beautiful_icon.py`, lines 10-19). -/
def gradStep (c1 c2 : RGB) (w h : ℕ) (vertical : Bool) (img : Img) (i : ℕ) : Img :=
  let c := interpColor c1 c2 i (if vertical then h else w)
  if vertical then setRow img i c else setCol img i c

/-- `create_gradient` (`create_beautiful_icon.py`, lines 5-21): start from a
black canvas and paint one interpolated row (or column) per loop step. -/
def create_gradient (w h : ℕ) (c1 c2 : RGB) (vertical : Bool) : Img :=
  (List.range (if vertical then h else w)).foldl (gradStep c1 c2 w h vertical) blackImg

/-- The channel formula asserted by the spec for `create_gradient`, with the
rounding mode amended from `round` to floor (Python `int` truncation on the
non-negative values arising here); clamping to `[0, 255]` is stated
separately and shown vacuous. -/
def floorChannel (c1 c2 : ℤ) (i extent : ℕ) : ℤ :=
  ⌊(c1 : ℚ) * (1 - (i : ℚ) / (extent : ℚ)) + (c2 : ℚ) * ((i : ℚ) / (extent : ℚ))⌋

/-- The channel formula exactly as the claim words it: `round`, then clamp
to `[0, 255]`.  Kept only to compare against the code's behaviour. -/
def roundClampChannel (c1 c2 : ℤ) (i extent : ℕ) : ℤ :=
  min 255 (max 0 (round ((c1 : ℚ) * (1 - (i : ℚ) / (extent : ℚ)) + (c2 : ℚ) * ((i : ℚ) / (extent : ℚ)))))

/-- All three channels of a color lie in the 8-bit range. -/
def rgbIn255 (c : RGB) : Prop :=
  0 ≤ c.r ∧ c.r ≤ 255 ∧ 0 ≤ c.g ∧ c.g ≤ 255 ∧ 0 ≤ c.b ∧ c.b ≤ 255

lemma foldl_setRow_pixel (f : ℕ → RGB) :
    ∀ (n : ℕ) (img : Img) (x y : ℕ), y < n →
      ((List.range n).foldl (fun im i => setRow im i (f i)) img) x y = f y := by
  intro n
  induction n with
  | zero => intro img x y hy; exact absurd hy (Nat.not_lt_zero y)
  | succ n ih =>
    intro img x y hy
    rw [List.range_succ, List.foldl_append]
    simp only [List.foldl_cons, List.foldl_nil, setRow]
    rcases Nat.lt_succ_iff_lt_or_eq.1 hy with h | h
    · rw [if_neg (by omega)]
      exact ih img x y h
    · rw [if_pos h, h]

lemma foldl_setCol_pixel (f : ℕ → RGB) :
    ∀ (n : ℕ) (img : Img) (x y : ℕ), x < n →
      ((List.range n).foldl (fun im i => setCol im i (f i)) img) x y = f x := by
  intro n
  induction n with
  | zero => intro img x y hx; exact absurd hx (Nat.not_lt_zero x)
  | succ n ih =>
    intro img x y hx
    rw [List.range_succ, List.foldl_append]
    simp only [List.foldl_cons, List.foldl_nil, setCol]
    rcases Nat.lt_succ_iff_lt_or_eq.1 hx with h | h
    · rw [if_neg (by omega)]
      exact ih img x y h
    · rw [if_pos h, h]

/-- Closed form of the gradient loop: the pixel at `(x, y)` is the color
interpolated at its row (vertical) or column (horizontal) index. -/
lemma create_gradient_pixel_eq (w h : ℕ) (c1 c2 : RGB) (vertical : Bool)
    (x y : ℕ) (hx : x < w) (hy : y < h) :
    create_gradient w h c1 c2 vertical x y =
      interpColor c1 c2 (if vertical then y else x) (if vertical then h else w) := by
  cases vertical
  · exact foldl_setCol_pixel (fun i => interpColor c1 c2 i w) w blackImg x y hx
  · exact foldl_setRow_pixel (fun i => interpColor c1 c2 i h) h blackImg x y hy

lemma ratio_bounds (i e : ℕ) (h : i < e) :
    0 ≤ (i : ℚ) / (e : ℚ) ∧ (i : ℚ) / (e : ℚ) ≤ 1 := by
  have he0 : 0 < e := lt_of_le_of_lt (Nat.zero_le i) h
  have he : (0 : ℚ) < (e : ℚ) := by exact_mod_cast he0
  constructor
  · positivity
  · rw [div_le_one he]
    exact_mod_cast h.le

/-- A convex combination of two integers stays between their min and max. -/
lemma interp_val_bounds (c1 c2 : ℤ) (t : ℚ) (h0 : 0 ≤ t) (h1 : t ≤ 1) :
    ((min c1 c2 : ℤ) : ℚ) ≤ (c1 : ℚ) * (1 - t) + (c2 : ℚ) * t ∧
      (c1 : ℚ) * (1 - t) + (c2 : ℚ) * t ≤ ((max c1 c2 : ℤ) : ℚ) := by
  have hmin1 : ((min c1 c2 : ℤ) : ℚ) ≤ (c1 : ℚ) := by exact_mod_cast min_le_left c1 c2
  have hmin2 : ((min c1 c2 : ℤ) : ℚ) ≤ (c2 : ℚ) := by exact_mod_cast min_le_right c1 c2
  have hmax1 : (c1 : ℚ) ≤ ((max c1 c2 : ℤ) : ℚ) := by exact_mod_cast le_max_left c1 c2
  have hmax2 : (c2 : ℚ) ≤ ((max c1 c2 : ℤ) : ℚ) := by exact_mod_cast le_max_right c1 c2
  constructor
  · nlinarith [mul_le_mul_of_nonneg_right hmin1 (sub_nonneg.2 h1),
      mul_le_mul_of_nonneg_right hmin2 h0]
  · nlinarith [mul_le_mul_of_nonneg_right hmax1 (sub_nonneg.2 h1),
      mul_le_mul_of_nonneg_right hmax2 h0]

/-- With non-negative channels the interpolated value is non-negative, so
Python's `int` truncation is exactly the floor of the exact value. -/
lemma interpChannel_eq_floorChannel (c1 c2 : ℤ) (i e : ℕ)
    (h1 : 0 ≤ c1) (h2 : 0 ≤ c2) (hie : i < e) :
    interpChannel c1 c2 i e = floorChannel c1 c2 i e := by
  obtain ⟨ht0, ht1⟩ := ratio_bounds i e hie
  have hq1 : (0 : ℚ) ≤ (c1 : ℚ) := by exact_mod_cast h1
  have hq2 : (0 : ℚ) ≤ (c2 : ℚ) := by exact_mod_cast h2
  have hv : 0 ≤ (c1 : ℚ) * (1 - (i : ℚ) / (e : ℚ)) + (c2 : ℚ) * ((i : ℚ) / (e : ℚ)) :=
    add_nonneg (mul_nonneg hq1 (by linarith)) (mul_nonneg hq2 ht0)
  rw [interpChannel, pyInt, if_pos hv, floorChannel]

/-- The floored interpolated channel stays between the two input channels. -/
lemma floorChannel_bounds (c1 c2 : ℤ) (i e : ℕ) (hie : i < e) :
    min c1 c2 ≤ floorChannel c1 c2 i e ∧ floorChannel c1 c2 i e ≤ max c1 c2 := by
  obtain ⟨ht0, ht1⟩ := ratio_bounds i e hie
  obtain ⟨hlo, hhi⟩ := interp_val_bounds c1 c2 _ ht0 ht1
  constructor
  · exact Int.le_floor.2 hlo
  · calc floorChannel c1 c2 i e ≤ ⌊((max c1 c2 : ℤ) : ℚ)⌋ := Int.floor_le_floor hhi
      _ = max c1 c2 := Int.floor_intCast _

/-- C1 (amended): for every canvas size, colors with 8-bit channels and axis
flag, the pixel of `create_gradient` at in-bounds `(x, y)` has each channel
equal to `⌊c1 * (1 - t) + c2 * t⌋` with `t = i / extent`, where `i` is the
row (vertical) or column (horizontal) index and `extent` the height
resp. width; the value already lies in `[0, 255]`, so the clamp the claim
mentions never alters it.  (The claim's `round` is amended to floor:
Python's `int(...)` truncates, see `create_gradient_not_round`.) -/
theorem create_gradient_pixel_formula (w h x y i e : ℕ) (c1 c2 : RGB) (vertical : Bool)
    (hw : 1 ≤ w) (hh : 1 ≤ h)
    (hc1 : rgbIn255 c1) (hc2 : rgbIn255 c2)
    (hx : x < w) (hy : y < h)
    (hi : i = if vertical then y else x) (he : e = if vertical then h else w) :
    create_gradient w h c1 c2 vertical x y =
      ⟨floorChannel c1.r c2.r i e, floorChannel c1.g c2.g i e, floorChannel c1.b c2.b i e⟩ ∧
    (0 ≤ floorChannel c1.r c2.r i e ∧ floorChannel c1.r c2.r i e ≤ 255) ∧
    (0 ≤ floorChannel c1.g c2.g i e ∧ floorChannel c1.g c2.g i e ≤ 255) ∧
    (0 ≤ floorChannel c1.b c2.b i e ∧ floorChannel c1.b c2.b i e ≤ 255) := by
  obtain ⟨h1r, h1r255, h1g, h1g255, h1b, h1b255⟩ := hc1
  obtain ⟨h2r, h2r255, h2g, h2g255, h2b, h2b255⟩ := hc2
  have hie : i < e := by cases vertical <;> simp_all
  have hpix := create_gradient_pixel_eq w h c1 c2 vertical x y hx hy
  rw [← hi, ← he] at hpix
  refine ⟨?_, ?_, ?_, ?_⟩
  · rw [hpix, interpColor,
      interpChannel_eq_floorChannel c1.r c2.r i e h1r h2r hie,
      interpChannel_eq_floorChannel c1.g c2.g i e h1g h2g hie,
      interpChannel_eq_floorChannel c1.b c2.b i e h1b h2b hie]
  · obtain ⟨hlo, hhi⟩ := floorChannel_bounds c1.r c2.r i e hie
    exact ⟨le_trans (le_min h1r h2r) hlo, le_trans hhi (max_le h1r255 h2r255)⟩
  · obtain ⟨hlo, hhi⟩ := floorChannel_bounds c1.g c2.g i e hie
    exact ⟨le_trans (le_min h1g h2g) hlo, le_trans hhi (max_le h1g255 h2g255)⟩
  · obtain ⟨hlo, hhi⟩ := floorChannel_bounds c1.b c2.b i e hie
    exact ⟨le_trans (le_min h1b h2b) hlo, le_trans hhi (max_le h1b255 h2b255)⟩

/-- Witness for C1's amended theorem at a concrete gradient. -/
theorem create_gradient_pixel_formula_witness :
    create_gradient 2 2 ⟨0, 10, 255⟩ ⟨255, 20, 0⟩ true 1 1 =
      ⟨floorChannel 0 255 1 2, floorChannel 10 20 1 2, floorChannel 255 0 1 2⟩ ∧
    (0 ≤ floorChannel 0 255 1 2 ∧ floorChannel 0 255 1 2 ≤ 255) ∧
    (0 ≤ floorChannel 10 20 1 2 ∧ floorChannel 10 20 1 2 ≤ 255) ∧
    (0 ≤ floorChannel 255 0 1 2 ∧ floorChannel 255 0 1 2 ≤ 255) :=
  create_gradient_pixel_formula 2 2 1 1 1 2 ⟨0, 10, 255⟩ ⟨255, 20, 0⟩ true
    (by norm_num) (by norm_num)
    (by refine ⟨?_, ?_, ?_, ?_, ?_, ?_⟩ <;> norm_num)
    (by refine ⟨?_, ?_, ?_, ?_, ?_, ?_⟩ <;> norm_num)
    (by norm_num) (by norm_num) rfl rfl

/-- C1 counterexample: at the midpoint row of a 2-row vertical gradient from
black to white, the code truncates `127.5` to `127`, while the claim's
`round` (under Python's half-to-even as well as half-up) gives `128`. -/
theorem create_gradient_not_round :
    (create_gradient 1 2 ⟨0, 0, 0⟩ ⟨255, 255, 255⟩ true 0 1).r = 127 ∧
    roundClampChannel 0 255 1 2 = 128 ∧
    (create_gradient 1 2 ⟨0, 0, 0⟩ ⟨255, 255, 255⟩ true 0 1).r ≠ roundClampChannel 0 255 1 2 := by
  have hpix := create_gradient_pixel_eq 1 2 ⟨0, 0, 0⟩ ⟨255, 255, 255⟩ true 0 1
    (by norm_num) (by norm_num)
  have h1 : (create_gradient 1 2 ⟨0, 0, 0⟩ ⟨255, 255, 255⟩ true 0 1).r = 127 := by
    rw [hpix]
    show interpChannel 0 255 1 2 = 127
    rw [interpChannel_eq_floorChannel 0 255 1 2 (by norm_num) (by norm_num) (by norm_num),
      floorChannel]
    norm_num
  have h2 : roundClampChannel 0 255 1 2 = 128 := by
    rw [roundClampChannel, round_eq]
    norm_num
  exact ⟨h1, h2, by rw [h1, h2]; norm_num⟩

/-- C9: every channel of every in-bounds pixel of `create_gradient` lies
between the channel-wise min and max of the two input colors, hence in
`[0, 255]` when the inputs are 8-bit colors — no clamping is ever needed. -/
theorem create_gradient_channels_in_range (w h x y : ℕ) (c1 c2 : RGB) (vertical : Bool)
    (hc1 : rgbIn255 c1) (hc2 : rgbIn255 c2) (hx : x < w) (hy : y < h) :
    (min c1.r c2.r ≤ (create_gradient w h c1 c2 vertical x y).r ∧
      (create_gradient w h c1 c2 vertical x y).r ≤ max c1.r c2.r) ∧
    (min c1.g c2.g ≤ (create_gradient w h c1 c2 vertical x y).g ∧
      (create_gradient w h c1 c2 vertical x y).g ≤ max c1.g c2.g) ∧
    (min c1.b c2.b ≤ (create_gradient w h c1 c2 vertical x y).b ∧
      (create_gradient w h c1 c2 vertical x y).b ≤ max c1.b c2.b) ∧
    (0 ≤ (create_gradient w h c1 c2 vertical x y).r ∧
      (create_gradient w h c1 c2 vertical x y).r ≤ 255) ∧
    (0 ≤ (create_gradient w h c1 c2 vertical x y).g ∧
      (create_gradient w h c1 c2 vertical x y).g ≤ 255) ∧
    (0 ≤ (create_gradient w h c1 c2 vertical x y).b ∧
      (create_gradient w h c1 c2 vertical x y).b ≤ 255) := by
  obtain ⟨h1r, h1r255, h1g, h1g255, h1b, h1b255⟩ := hc1
  obtain ⟨h2r, h2r255, h2g, h2g255, h2b, h2b255⟩ := hc2
  have hie : (if vertical then y else x) < (if vertical then h else w) := by
    cases vertical <;> simp_all
  have hpix := create_gradient_pixel_eq w h c1 c2 vertical x y hx hy
  rw [hpix, interpColor]
  simp only
  rw [interpChannel_eq_floorChannel c1.r c2.r _ _ h1r h2r hie,
    interpChannel_eq_floorChannel c1.g c2.g _ _ h1g h2g hie,
    interpChannel_eq_floorChannel c1.b c2.b _ _ h1b h2b hie]
  obtain ⟨hrlo, hrhi⟩ := floorChannel_bounds c1.r c2.r _ _ hie
  obtain ⟨hglo, hghi⟩ := floorChannel_bounds c1.g c2.g _ _ hie
  obtain ⟨hblo, hbhi⟩ := floorChannel_bounds c1.b c2.b _ _ hie
  refine ⟨⟨hrlo, hrhi⟩, ⟨hglo, hghi⟩, ⟨hblo, hbhi⟩,
    ⟨le_trans (le_min h1r h2r) hrlo, le_trans hrhi (max_le h1r255 h2r255)⟩,
    ⟨le_trans (le_min h1g h2g) hglo, le_trans hghi (max_le h1g255 h2g255)⟩,
    ⟨le_trans (le_min h1b h2b) hblo, le_trans hbhi (max_le h1b255 h2b255)⟩⟩

/-- Witness for C9 at a concrete gradient. -/
theorem create_gradient_channels_in_range_witness :
    (min (10 : ℤ) 200 ≤ (create_gradient 3 2 ⟨10, 0, 255⟩ ⟨200, 255, 5⟩ false 2 1).r ∧
      (create_gradient 3 2 ⟨10, 0, 255⟩ ⟨200, 255, 5⟩ false 2 1).r ≤ max (10 : ℤ) 200) ∧
    (min (0 : ℤ) 255 ≤ (create_gradient 3 2 ⟨10, 0, 255⟩ ⟨200, 255, 5⟩ false 2 1).g ∧
      (create_gradient 3 2 ⟨10, 0, 255⟩ ⟨200, 255, 5⟩ false 2 1).g ≤ max (0 : ℤ) 255) ∧
    (min (255 : ℤ) 5 ≤ (create_gradient 3 2 ⟨10, 0, 255⟩ ⟨200, 255, 5⟩ false 2 1).b ∧
      (create_gradient 3 2 ⟨10, 0, 255⟩ ⟨200, 255, 5⟩ false 2 1).b ≤ max (255 : ℤ) 5) ∧
    (0 ≤ (create_gradient 3 2 ⟨10, 0, 255⟩ ⟨200, 255, 5⟩ false 2 1).r ∧
      (create_gradient 3 2 ⟨10, 0, 255⟩ ⟨200, 255, 5⟩ false 2 1).r ≤ 255) ∧
    (0 ≤ (create_gradient 3 2 ⟨10, 0, 255⟩ ⟨200, 255, 5⟩ false 2 1).g ∧
      (create_gradient 3 2 ⟨10, 0, 255⟩ ⟨200, 255, 5⟩ false 2 1).g ≤ 255) ∧
    (0 ≤ (create_gradient 3 2 ⟨10, 0, 255⟩ ⟨200, 255, 5⟩ false 2 1).b ∧
      (create_gradient 3 2 ⟨10, 0, 255⟩ ⟨200, 255, 5⟩ false 2 1).b ≤ 255) :=
  create_gradient_channels_in_range 3 2 2 1 ⟨10, 0, 255⟩ ⟨200, 255, 5⟩ false
    (by refine ⟨?_, ?_, ?_, ?_, ?_, ?_⟩ <;> norm_num)
    (by refine ⟨?_, ?_, ?_, ?_, ?_, ?_⟩ <;> norm_num)
    (by norm_num) (by norm_num)

/-! Constants of `create_beautiful_app_icon` (`create_beautiful_icon.py`,
lines 30-67 and 109); all the Python divisions below act on even
non-negative values, so `ℕ` division is exact. -/

def size : ℕ := 512

def center_x : ℕ := size / 2

def center_y : ℕ := size / 2

/-- `hex_to_rgb("#0f172a")`. -/
def dark_slate : RGB := ⟨15, 23, 42⟩

/-- `hex_to_rgb("#1e293b")`. -/
def dark_blue : RGB := ⟨30, 41, 59⟩

def book_width : ℕ := 180

def book_height : ℕ := 220

def book_x : ℕ := center_x - book_width / 2

def book_y : ℕ := center_y - book_height / 2 - 10

def bridge_y : ℕ := book_y + book_height + 40

/-- Python `range(start, stop, -step)` for a positive `step`, as used by the
glow loop: `start, start - step, ...`, stopping before `stop`. -/
def rangeDown (start stop step : ℕ) : List ℕ :=
  (List.range ((start - stop + step - 1) / step)).map fun k => start - step * k

/-- The glow loop's radius sequence `range(220, 150, -10)`
(`create_beautiful_icon.py`, line 50). -/
def glowRadii : List ℕ := rangeDown 220 150 10

/-- The glow loop's alpha, line 51: `max(5, 30 - (220 - radius) // 10)`
(every operand is non-negative for the radii that occur). -/
def glowAlpha (radius : ℕ) : ℕ := max 5 (30 - (220 - radius) / 10)

/-- The `(radius, alpha)` pairs in the order the glow loop draws them. -/
def glowLayers : List (ℕ × ℕ) := glowRadii.map fun radius => (radius, glowAlpha radius)

/-- The fixed glow hue `(59, 130, 246)` of line 57. -/
def glowColor : ℚ × ℚ × ℚ := (59, 130, 246)

/-- `Image.alpha_composite` of a translucent source pixel with alpha `a`
over a fully opaque destination pixel, per channel:
`src * a/255 + dst * (1 - a/255)` (the canvas is converted to opaque RGBA
before each composite and back to RGB after, line 59). -/
def compositeOver (dst src : ℚ × ℚ × ℚ) (a : ℚ) : ℚ × ℚ × ℚ :=
  (src.1 * (a / 255) + dst.1 * (1 - a / 255),
   src.2.1 * (a / 255) + dst.2.1 * (1 - a / 255),
   src.2.2 * (a / 255) + dst.2.2 * (1 - a / 255))

/-- One glow iteration seen at the canvas center `(256, 256)`: the overlay's
ellipse spans `[center - radius, center + radius]` in both axes, so it covers
the center for every radius drawn, and compositing applies the glow hue at
the layer's alpha. -/
def glowCenterStep (c : ℚ × ℚ × ℚ) (layer : ℕ × ℕ) : ℚ × ℚ × ℚ :=
  compositeOver c glowColor (layer.2 : ℚ)

/-- The color of the center pixel after the whole glow loop, starting from
the background color `init` the gradient put there. -/
def centerAfterGlow (init : ℚ × ℚ × ℚ) : ℚ × ℚ × ℚ :=
  glowLayers.foldl glowCenterStep init

/-- C10: for every radius of the glow sequence `range(220, 150, -10)`, the
computed alpha lies in `[23, 30]` (in fact in `[24, 30]`) and equals
`30 - (220 - radius) // 10`, which exceeds 5, so the `max(5, ...)` floor
branch is never the selected value. -/
theorem glowAlpha_in_range (radius : ℕ) (h : radius ∈ glowRadii) :
    (23 ≤ glowAlpha radius ∧ glowAlpha radius ≤ 30) ∧
    glowAlpha radius = 30 - (220 - radius) / 10 ∧
    5 < 30 - (220 - radius) / 10 := by
  have hall : ∀ r ∈ glowRadii,
      (23 ≤ glowAlpha r ∧ glowAlpha r ≤ 30) ∧
      glowAlpha r = 30 - (220 - r) / 10 ∧
      5 < 30 - (220 - r) / 10 := by decide
  exact hall radius h

/-- Witness for C10 at the smallest radius of the sequence. -/
theorem glowAlpha_in_range_witness :
    160 ∈ glowRadii ∧
    ((23 ≤ glowAlpha 160 ∧ glowAlpha 160 ≤ 30) ∧
      glowAlpha 160 = 30 - (220 - 160) / 10 ∧
      5 < 30 - (220 - 160) / 10) :=
  ⟨by decide, glowAlpha_in_range 160 (by decide)⟩

/-- C2 counterexample: in the code the smallest radius is drawn with the
LOWEST alpha (24 at radius 160), the largest with the highest (30 at radius
220), and the last-drawn layer is `(160, 24)` — so the claim's description
"largest, faintest first to smallest, most-opaque last (alpha is highest
for the smallest radius)" is false for this loop. -/
theorem glow_alpha_decreases_with_radius :
    glowAlpha 160 = 24 ∧ glowAlpha 220 = 30 ∧
    glowAlpha 160 < glowAlpha 220 ∧
    glowLayers.getLast? = some (160, 24) ∧
    ¬ glowAlpha 220 ≤ glowAlpha 160 := by decide

/-- C2 (amended): the glow loop composites its translucent circles in order
from the largest, MOST-opaque circle (radius 220, alpha 30) down to the
smallest, least-opaque one (radius 160, alpha 24) — radius and alpha both
strictly decrease along the sequence — and after the loop the pixel at the
exact center `(256, 256)` equals the result of compositing the
smallest-radius (lowest-alpha) layer on top of the canvas accumulated from
all earlier layers. -/
theorem glow_layers_order (init : ℚ × ℚ × ℚ) :
    glowLayers = [(220, 30), (210, 29), (200, 28), (190, 27), (180, 26), (170, 25), (160, 24)] ∧
    List.Pairwise (fun p q : ℕ × ℕ => q.1 < p.1 ∧ q.2 < p.2) glowLayers ∧
    centerAfterGlow init =
      glowCenterStep (List.foldl glowCenterStep init glowLayers.dropLast) (160, 24) := by
  refine ⟨by decide, by decide, ?_⟩
  rfl

/-- One sample of the bridge arc (`create_beautiful_icon.py`, lines 114-118):
`x = book_x - 40 + i * (book_width + 80) / 100`, `t = (i - 50) / 50`,
`y = bridge_y - 30 * (1 - t * t)`. -/
def bridgePoint (i : ℕ) : ℚ × ℚ :=
  ((book_x : ℚ) - 40 + (i : ℚ) * ((book_width : ℚ) + 80) / 100,
   (bridge_y : ℚ) - 30 * (1 - ((i : ℚ) - 50) / 50 * (((i : ℚ) - 50) / 50)))

/-- The list `bridge_points` accumulated by the loop `for i in range(101)`
(`create_beautiful_icon.py`, lines 110-118). -/
def bridge_points : List (ℚ × ℚ) := (List.range 101).map bridgePoint

lemma bridge_points_length : bridge_points.length = 101 := by
  rw [bridge_points, List.length_map, List.length_range]

lemma bridge_points_get (i : ℕ) (h : i < 101) :
    bridge_points.get ⟨i, by rw [bridge_points_length]; exact h⟩ = bridgePoint i := by
  simp only [bridge_points, List.get_eq_getElem, List.getElem_map, List.getElem_range]

/-- C6: the bridge curve consists of exactly 101 samples whose `i`-th point
is `(book_x - 40 + i * (book_width + 80) / 100, bridge_y - 30 * (1 - t²))`
with `t = (i - 50) / 50` linearly spaced over `[-1, 1]` — the parabola
`y = bridge_y - amplitude * (1 - t²)` with amplitude 30. -/
theorem bridge_points_parabola :
    bridge_points.length = 101 ∧
    bridge_points = (List.range 101).map fun (i : ℕ) =>
      ((book_x : ℚ) - 40 + (i : ℚ) * ((book_width : ℚ) + 80) / 100,
       (bridge_y : ℚ) - 30 * (1 - (((i : ℚ) - 50) / 50) ^ 2)) := by
  refine ⟨bridge_points_length, ?_⟩
  rw [bridge_points]
  refine List.map_congr_left fun i _ => ?_
  simp only [bridgePoint, Prod.mk.injEq]
  exact ⟨trivial, by ring⟩

/-- C7: the sampled curve is symmetric about its midpoint — sample `i` and
sample `100 - i` have the same `y`-coordinate (the parabola satisfies
`y(t) = y(-t)`). -/
theorem bridge_points_symmetric (i : ℕ) (h : i ≤ 100) :
    (bridge_points.get ⟨i, by rw [bridge_points_length]; omega⟩).2 =
    (bridge_points.get ⟨100 - i, by rw [bridge_points_length]; omega⟩).2 := by
  rw [bridge_points_get i (by omega), bridge_points_get (100 - i) (by omega)]
  simp only [bridgePoint]
  have hc : ((100 - i : ℕ) : ℚ) = 100 - (i : ℚ) := by
    push_cast [Nat.cast_sub h]
    ring
  rw [hc]
  ring

/-- Witness for C7 at `i = 30` (paired with sample 70). -/
theorem bridge_points_symmetric_witness :
    (bridge_points.get ⟨30, by rw [bridge_points_length]; omega⟩).2 =
    (bridge_points.get ⟨70, by rw [bridge_points_length]; omega⟩).2 :=
  bridge_points_symmetric 30 (by norm_num)

/-- The strut `x` of line 131: `book_x - 40 + pos * (book_width + 80)`. -/
def strutX (pos : ℚ) : ℚ := (book_x : ℚ) - 40 + pos * ((book_width : ℚ) + 80)

/-- The strut top `y` exactly as line 132 computes it:
`bridge_y - 30 * (1 - (pos - 0.5) * 2) ** 2`, i.e. with the exponent
applying to `(1 - (pos - 0.5) * 2)` as a whole. -/
def strutTopY (pos : ℚ) : ℚ := (bridge_y : ℚ) - 30 * (1 - (pos - 1 / 2) * 2) ^ 2

/-- The strut baseline of line 133: `bridge_y + 30`. -/
def strutBaselineY : ℚ := (bridge_y : ℚ) + 30

/-- The parabola the bridge samples follow (line 117):
`y(t) = bridge_y - 30 * (1 - t * t)`. -/
def curveY (t : ℚ) : ℚ := (bridge_y : ℚ) - 30 * (1 - t * t)

/-- The fractional strut positions of line 129. -/
def support_positions : List ℚ := [1 / 4, 3 / 4]

/-- C3 evidence (code bug): at both fractional positions the strut top
computed by line 132 does NOT equal the curve's value at `t = 2 * (p - 0.5)`
— the code squares `(1 - 2 * (p - 0.5))` instead of `2 * (p - 0.5)`, a
misplaced parenthesis, so the struts do not start on the sampled arc (at
`p = 0.25` the strut top `328.5` even lies above the arc's apex `366`,
while the curve point is `373.5`). -/
theorem strut_top_misses_curve :
    strutTopY (1 / 4) = 657 / 2 ∧ curveY (2 * ((1 / 4 : ℚ) - 1 / 2)) = 747 / 2 ∧
    strutTopY (1 / 4) ≠ curveY (2 * ((1 / 4 : ℚ) - 1 / 2)) ∧
    strutTopY (3 / 4) = 777 / 2 ∧ curveY (2 * ((3 / 4 : ℚ) - 1 / 2)) = 747 / 2 ∧
    strutTopY (3 / 4) ≠ curveY (2 * ((3 / 4 : ℚ) - 1 / 2)) ∧
    (1 / 4 : ℚ) ∈ support_positions ∧ (3 / 4 : ℚ) ∈ support_positions := by
  have hb : (bridge_y : ℚ) = 396 := by
    norm_num [bridge_y, book_y, book_height, center_y, size]
  refine ⟨?_, ?_, ?_, ?_, ?_, ?_, ?_, ?_⟩ <;>
    simp only [strutTopY, curveY, support_positions, hb, List.mem_cons] <;> norm_num

/-- The font a PIL call ends up with: the preferred Helvetica truetype at a
given point size, or `ImageFont.load_default()`. -/
inductive FontChoice
  | preferred (pointSize : ℕ)
  | loadDefault
deriving DecidableEq

/-- A bare `ImageFont.truetype(...)` call with no surrounding `try`: raises
(modelled as `Except.error`) when the preferred font file is unavailable. -/
def truetypeStrict (fontAvailable : Bool) (pointSize : ℕ) : Except Unit FontChoice :=
  if fontAvailable then .ok (.preferred pointSize) else .error ()

/-- The `try/except` font loads of `create_beautiful_app_icon`
(`create_beautiful_icon.py`, lines 138-143): both loads fall back to the
default font together when the truetype file is unavailable; never raises. -/
def beautifulIconFonts (fontAvailable : Bool) : FontChoice × FontChoice :=
  if fontAvailable then (.preferred 32, .preferred 18) else (.loadDefault, .loadDefault)

/-- The `try/except` font load of `create_app_icon`
(`create_app_assets.py`, lines 49-53); never raises. -/
def appIconFont (fontAvailable : Bool) : FontChoice :=
  if fontAvailable then .preferred 120 else .loadDefault

/-- `create_app_icon` (`create_app_assets.py`, lines 11-66): its canvas is
`Image.new('RGB', (512, 512))` and the pipeline always reaches the save. -/
def create_app_icon (fontAvailable : Bool) : (ℕ × ℕ) × FontChoice :=
  ((512, 512), appIconFont fontAvailable)

/-- The feature strings of `create_feature_graphic`
(`create_app_assets.py`, lines 103-107). -/
def features : List String :=
  ["AI-Powered Text Simplification",
   "Professional Audio Narration",
   "Interactive Learning Tools"]

/-- `create_feature_graphic` (`create_app_assets.py`, lines 68-130), reduced
to its font-dependent control flow: the title/subtitle loads are wrapped in
`try/except` (lines 87-92), but the per-feature
`ImageFont.truetype("/System/Library/Fonts/Helvetica.ttc", 24)` on line 114
is NOT guarded, so the routine propagates the exception — and never reaches
`img.save` — when the font is unavailable.  On success it returns the
dimensions of the canvas created on line 71 and saved on line 129. -/
def create_feature_graphic (fontAvailable : Bool) : Except Unit (ℕ × ℕ) := do
  let _titleFonts :=
    if fontAvailable then (FontChoice.preferred 80, FontChoice.preferred 36)
    else (FontChoice.loadDefault, FontChoice.loadDefault)
  let _ ← features.mapM fun _feature => truetypeStrict fontAvailable 24
  pure (1024, 500)

/-- C4 evidence (code bug): the guarded loads do fall back to the default
font, but `create_feature_graphic` also performs an unguarded truetype load
inside its feature loop, so with the preferred font unavailable the routine
raises instead of continuing to the save step — the claim's "never raises"
fails for that routine. -/
theorem font_fallback_not_total :
    beautifulIconFonts false = (.loadDefault, .loadDefault) ∧
    appIconFont false = .loadDefault ∧
    create_app_icon false = ((512, 512), .loadDefault) ∧
    truetypeStrict false 24 = .error () ∧
    create_feature_graphic false = .error () :=
  ⟨rfl, rfl, rfl, rfl, rfl⟩

/-- C5 evidence (code bug): with the preferred font available the feature
graphic is produced at exactly 1024×500, but with it unavailable the
unguarded truetype call aborts the routine and no image is produced at
all — so the "always produces a 1024×500 image" contract fails. -/
theorem feature_graphic_dimensions :
    create_feature_graphic true = .ok (1024, 500) ∧
    ¬ ∃ dims, create_feature_graphic false = .ok dims := by
  refine ⟨rfl, ?_⟩
  rintro ⟨dims, hdims⟩
  rw [show create_feature_graphic false = (.error () : Except Unit (ℕ × ℕ)) from rfl] at hdims
  exact Except.noConfusion hdims

/-- The observable artifacts of the `create_beautiful_app_icon` pipeline as
embedded here: canvas dimensions, the fonts resolved, the center pixel after
the glow loop (starting from the gradient background's center pixel), the
sampled bridge arc and the strut segments. -/
structure IconOutput where
  dims : ℕ × ℕ
  fonts : FontChoice × FontChoice
  glowCenter : ℚ × ℚ × ℚ
  bridge : List (ℚ × ℚ)
  struts : List (ℚ × ℚ × ℚ)

/-- A pixel color as the exact rational triple used in compositing. -/
def rgbToQ (c : RGB) : ℚ × ℚ × ℚ := ((c.r : ℚ), (c.g : ℚ), (c.b : ℚ))

/-- The background gradient's pixel at the canvas center (line 35 of
`create_beautiful_icon.py` evaluated at `(256, 256)`). -/
def bgCenter : RGB := create_gradient size size dark_slate dark_blue true center_x center_y

/-- `create_beautiful_app_icon` (`create_beautiful_icon.py`, lines 28-198),
as a function of its environment: whether the preferred font is available,
plus an arbitrary run-varying ambient state `_runState` that NO step of the
pipeline reads — every other input of the script is a literal constant. -/
def create_beautiful_app_icon (fontAvailable : Bool) (_runState : ℕ) : IconOutput :=
  { dims := (size, size)
    fonts := beautifulIconFonts fontAvailable
    glowCenter := centerAfterGlow (rgbToQ bgCenter)
    bridge := bridge_points
    struts := support_positions.map fun p => (strutX p, strutTopY p, strutBaselineY) }

/-- C8: `create_beautiful_app_icon` is deterministic — with the font
environment fixed, two runs under arbitrary (and arbitrarily different)
run-varying ambient states produce identical output: no step of the
pipeline depends on randomness or run-varying state. -/
theorem create_beautiful_app_icon_deterministic (fontAvailable : Bool) (s1 s2 : ℕ) :
    create_beautiful_app_icon fontAvailable s1 = create_beautiful_app_icon fontAvailable s2 :=
  rfl

end BookBridge
